import Mathlib

/-!
Verification of the output/surface lifecycle and readiness-gating engine of the
desktop-shell client (src/clients/desktop-shell.cpp), as a shallow embedding.

Machine integers (`int32_t`) are modelled as `Int`; `uint32_t` colors as `Nat`.
C strings are modelled as `List Char` where character-level scanning matters
(launcher command parsing) and as `String` for simple keyword comparison.
-/

set_option linter.unusedVariables false

namespace DShell

/-- The `ClockFormat` enum (desktop-shell.cpp, `enum class ClockFormat`). -/
inductive ClockFormat
  | Minutes
  | Seconds
  | Minutes24h
  | Seconds24h
  | Iso
  | NoneFmt
deriving DecidableEq, Repr

/-- The `weston_desktop_shell_panel_position` values used by the shell. -/
inductive PanelPosition
  | Top
  | Bottom
  | Left
  | Right
deriving DecidableEq, Repr

/-- Transcription of `Desktop::parse_clock_format`: the keyword comparison chain
mapping a clock-format string to a `ClockFormat`, with `Iso` as the catch-all. -/
def parse_clock_format (s : String) : ClockFormat :=
  if s = "minutes" then ClockFormat.Minutes
  else if s = "seconds" then ClockFormat.Seconds
  else if s = "minutes-24h" then ClockFormat.Minutes24h
  else if s = "seconds-24h" then ClockFormat.Seconds24h
  else if s = "none" then ClockFormat.NoneFmt
  else ClockFormat.Iso

/-- The configuration lookup in `Desktop::parse_clock_format`:
`weston_config_section_get_string(s, "clock-format", &clock_format, "")`
substitutes the empty string when the key is absent. -/
def parse_clock_format_config (cfg : Option String) : ClockFormat :=
  parse_clock_format (cfg.getD "")

/-- Result of a shell-surface configure handler: either the surface is
destroyed (zero/negative sentinel size) or a resize is scheduled. -/
inductive ConfigureResult
  | destroyed
  | resize (w h : Int)
deriving DecidableEq, Repr

/-- The size-negotiation switch of `panel_configure` (the non-destroy path):
top/bottom forces height 32; left/right forces width by the clock-format tier.
Note the source reads `desktop->panel_position` and `desktop->clock_format`. -/
def panel_negotiate (dpos : PanelPosition) (dfmt : ClockFormat) (w h : Int) :
    Int × Int :=
  match dpos with
  | PanelPosition.Top | PanelPosition.Bottom => (w, 32)
  | PanelPosition.Left | PanelPosition.Right =>
    let w2 : Int :=
      match dfmt with
      | ClockFormat.Iso | ClockFormat.NoneFmt => 32
      | ClockFormat.Minutes | ClockFormat.Minutes24h
      | ClockFormat.Seconds24h => 150
      | ClockFormat.Seconds => 170
    (w2, h)

/-- Transcription of `panel_configure`.  `dpos`/`dfmt` are the Desktop's
current global `panel_position`/`clock_format` (what the handler actually
reads); `ppos`/`pfmt` are the Panel's captured `_panel_position` and
`_clock_format` (available through the panel pointer but not consulted). -/
def panel_configure (dpos : PanelPosition) (dfmt : ClockFormat)
    (ppos : PanelPosition) (pfmt : ClockFormat) (w h : Int) : ConfigureResult :=
  if w < 1 ∨ h < 1 then
    ConfigureResult.destroyed
  else
    let wh := panel_negotiate dpos dfmt w h
    ConfigureResult.resize wh.1 wh.2

/-- The `Background::Type` enum. -/
inductive BackgroundType
  | Scale
  | ScaleCrop
  | Tile
  | Centered
  | Invalid
deriving DecidableEq, Repr

/-- The background-type keyword chain in `background_create`: unrecognized
strings are logged and mapped to `Invalid`. -/
def parse_background_type (s : String) : BackgroundType :=
  if s = "scale" then BackgroundType.Scale
  else if s = "scale-crop" then BackgroundType.ScaleCrop
  else if s = "tile" then BackgroundType.Tile
  else if s = "centered" then BackgroundType.Centered
  else BackgroundType.Invalid

/-- The configuration lookup in `background_create`:
`weston_config_section_get_string(s, "background-type", &type, "tile")`
substitutes "tile" when the key is absent. -/
def background_create_type (cfg : Option String) : BackgroundType :=
  parse_background_type (cfg.getD "tile")

/-- How `background_draw` renders: either the image/pattern pass runs (with the
given layout type) or it is skipped and only the solid-color paint remains. -/
inductive DrawMode
  | solidOnly
  | patterned (t : BackgroundType)
deriving DecidableEq, Repr

/-- The guard in `background_draw`: the image pass runs only when an image
surface was obtained and the type is not `Invalid`
(`if (image && background->type != Background::Type::Invalid)`). -/
def background_draw_mode (image_loaded : Bool) (t : BackgroundType) : DrawMode :=
  if image_loaded ∧ t ≠ BackgroundType.Invalid then DrawMode.patterned t
  else DrawMode.solidOnly

/-- A `Panel` as far as ownership/readiness is concerned: a tag identifying
the object, the owner back-reference (`Panel::_owner`, by output id), and the
`_painted` flag. -/
structure PanelSt where
  pid : Nat
  owner : Nat
  painted : Bool
deriving DecidableEq, Repr

/-- A `Background`: identity tag, owner back-reference (`Background::owner`,
by output id), `painted` flag, and the fields `image`/`color` consulted by
`background_configure`. -/
structure BgSt where
  bid : Nat
  owner : Nat
  painted : Bool
  has_image : Bool
  color : Nat
deriving DecidableEq, Repr

/-- An `Output`: the compositor-assigned id (`_server_output_id`), the cached
position (`_x`, `_y`), and the owned decorations (`_panel`, `_background`,
null pointers modelled as `none`). -/
structure OutputSt where
  oid : Nat
  x : Int
  y : Int
  panel : Option PanelSt
  background : Option BgSt
deriving DecidableEq, Repr

/-- The clone scan in `Desktop::remove_output`: the first other live output
whose cached position exactly matches the removed output's position.  The
source skips the removed output by pointer identity; output ids are unique,
so the skip is modelled by `oid`. -/
def find_clone (outs : List OutputSt) (out : OutputSt) : Option OutputSt :=
  outs.find? (fun cur => cur.oid ≠ out.oid ∧ cur.x = out.x ∧ cur.y = out.y)

/-- Outcome of `Desktop::remove_output`: the contents of `desktop->outputs`
after the call, and the identity tags of the decorations destroyed by the
`delete output` at the end (via `Output::~Output`).  The source never erases
the removed entry from the `pr::Vector`, so `outputs` keeps it. -/
structure RemoveResult where
  outputs : List OutputSt
  destroyed_panels : List Nat
  destroyed_bgs : List Nat
  destroyed_outputs : List Nat
deriving DecidableEq, Repr

/-- Transcription of `Desktop::remove_output` followed by `Output::~Output`.
No background: `delete output` immediately (destroying an attached panel, if
any).  Otherwise the first clone, if present, receives the background iff it
lacks one (owner back-reference rewritten) and the panel iff it lacks one;
whatever stays attached to `out` is destroyed with it. -/
def remove_output (outs : List OutputSt) (out : OutputSt) : RemoveResult :=
  if out.background.isNone then
    { outputs := outs
      destroyed_panels := (out.panel.map PanelSt.pid).toList
      destroyed_bgs := []
      destroyed_outputs := [out.oid] }
  else
    match find_clone outs out with
    | none =>
      { outputs := outs
        destroyed_panels := (out.panel.map PanelSt.pid).toList
        destroyed_bgs := (out.background.map BgSt.bid).toList
        destroyed_outputs := [out.oid] }
    | some rep =>
      let hand_bg := rep.background.isNone
      let rep1 :=
        if hand_bg then
          { rep with background :=
              out.background.map (fun b => { b with owner := rep.oid }) }
        else rep
      let out1 := if hand_bg then { out with background := none } else out
      let hand_panel := rep1.panel.isNone
      let rep2 :=
        if hand_panel then
          { rep1 with panel :=
              out1.panel.map (fun p => { p with owner := rep.oid }) }
        else rep1
      let out2 := if hand_panel then { out1 with panel := none } else out1
      { outputs := outs.map (fun c => if c.oid = rep.oid then rep2 else c)
        destroyed_panels := (out2.panel.map PanelSt.pid).toList
        destroyed_bgs := (out2.background.map BgSt.bid).toList
        destroyed_outputs := [out.oid] }

/-- Transcription of the `wl_output` branch of `global_handler_remove`: find
the output whose `server_output_id` matches and run `Desktop::remove_output`
on it; the resulting `desktop->outputs` contents are returned. -/
def global_handler_remove (outs : List OutputSt) (sid : Nat) : List OutputSt :=
  match outs.find? (fun o => o.oid = sid) with
  | some o => (remove_output outs o).outputs
  | none => outs

/-- First output with the given id in a collection. -/
def lookup_output (outs : List OutputSt) (i : Nat) : Option OutputSt :=
  outs.find? (fun o => o.oid = i)

/-- Transcription of `Desktop::is_painted`: true iff no output in the
collection owns a panel or a background whose `painted` flag is unset. -/
def desktop_is_painted (outs : List OutputSt) : Bool :=
  outs.all (fun o =>
    (match o.panel with
     | some p => p.painted
     | none => true) &&
    (match o.background with
     | some b => b.painted
     | none => true))

/-- Desktop state relevant to the readiness barrier: the one-way `painted`
gate and the outputs collection. -/
structure DesktopSt where
  painted : Bool
  outputs : List OutputSt
deriving DecidableEq, Repr

/-- Transcription of `check_desktop_ready`: a no-op when `desktop->painted`
is already set; otherwise, when `Desktop::is_painted()` holds, the gate is
set and the `weston_desktop_shell_desktop_ready` notification is emitted
(the `Bool` result). -/
def check_desktop_ready (d : DesktopSt) : DesktopSt × Bool :=
  if !d.painted && desktop_is_painted d.outputs then
    ({ d with painted := true }, true)
  else (d, false)

/-- Events driving the readiness barrier: a panel or background paint
completing (its redraw handler sets the surface's `painted` flag and calls
`check_desktop_ready`), an output announcement (`global_handler` pushes a new
`Output`), or an output removal (`global_handler_remove`). -/
inductive Ev
  | paintPanel (oid : Nat)
  | paintBackground (oid : Nat)
  | announceOutput (o : OutputSt)
  | removeOutput (oid : Nat)
deriving DecidableEq, Repr

/-- The assignment `panel->set_painted(1)` at the end of
`panel_redraw_handler`, addressed by owning output id. -/
def mark_panel_painted (outs : List OutputSt) (oid : Nat) : List OutputSt :=
  outs.map (fun o =>
    if o.oid = oid then
      { o with panel := o.panel.map (fun p => { p with painted := true }) }
    else o)

/-- The assignment `background->painted = 1` at the end of
`background_draw`, addressed by owning output id. -/
def mark_background_painted (outs : List OutputSt) (oid : Nat) : List OutputSt :=
  outs.map (fun o =>
    if o.oid = oid then
      { o with background := o.background.map (fun b => { b with painted := true }) }
    else o)

/-- One event step; returns the new desktop state and how many desktop-ready
notifications were emitted (0 or 1).  Paint events end with
`check_desktop_ready`, exactly as `panel_redraw_handler`/`background_draw`
do; hot-plug events never emit. -/
def stepEv (d : DesktopSt) (e : Ev) : DesktopSt × Nat :=
  match e with
  | Ev.paintPanel i =>
    let d2 := { d with outputs := mark_panel_painted d.outputs i }
    let r := check_desktop_ready d2
    (r.1, if r.2 then 1 else 0)
  | Ev.paintBackground i =>
    let d2 := { d with outputs := mark_background_painted d.outputs i }
    let r := check_desktop_ready d2
    (r.1, if r.2 then 1 else 0)
  | Ev.announceOutput o =>
    ({ d with outputs := d.outputs ++ [o] }, 0)
  | Ev.removeOutput i =>
    ({ d with outputs := global_handler_remove d.outputs i }, 0)

/-- Run a sequence of events, accumulating the number of desktop-ready
notifications emitted. -/
def runEv (d : DesktopSt) : List Ev → DesktopSt × Nat
  | [] => (d, 0)
  | e :: rest =>
    let r := stepEv d e
    let r2 := runEv r.1 rest
    (r2.1, r.2 + r2.2)

/-- The effect of `panel_configure` on the owning output: on the zero-size
sentinel the panel is deleted and `owner->set_panel(nullptr)` clears the
reference (no resize is scheduled, `none`); otherwise the negotiated size is
passed to `window_schedule_resize`. -/
def apply_panel_configure (dpos : PanelPosition) (dfmt : ClockFormat)
    (o : OutputSt) (w h : Int) : OutputSt × Option (Int × Int) :=
  if w < 1 ∨ h < 1 then ({ o with panel := none }, none)
  else (o, some (panel_negotiate dpos dfmt w h))

/-- The effect of `background_configure` on the owning output: on the
zero-size sentinel the background is destroyed and
`owner->set_background(nullptr)` clears the reference (no resize, `none`);
otherwise, for a pure solid-color background
(`!background->image && background->color`) the viewport destination is set
to the proposed size and the widget is resized to 1x1, else the widget is
resized to the proposal.  The scheduled action is `(viewport, w, h)`. -/
def apply_background_configure (o : OutputSt) (w h : Int) :
    OutputSt × Option (Option (Int × Int) × Int × Int) :=
  match o.background with
  | none => (o, none)
  | some b =>
    if w < 1 ∨ h < 1 then ({ o with background := none }, none)
    else if !b.has_image && b.color ≠ 0 then (o, some (some (w, h), 1, 1))
    else (o, some (none, w, h))

/-- Transcription of `output_handle_geometry`: the cached position is
updated, and `window_set_buffer_transform` is applied to the panel window and
the background window only when those surfaces exist (the two `Bool`s report
whether each was touched). -/
def output_handle_geometry (o : OutputSt) (x y : Int) :
    OutputSt × Bool × Bool :=
  ({ o with x := x, y := y }, o.panel.isSome, o.background.isSome)

/-- Transcription of `output_handle_scale`: `window_set_buffer_scale` is
applied to the panel window and background window only when those surfaces
exist. -/
def output_handle_scale (o : OutputSt) : Bool × Bool :=
  (o.panel.isSome, o.background.isSome)

/-- Linux input button code `BTN_LEFT`. -/
def BTN_LEFT : Nat := 272

/-- Wayland pointer button state. -/
inductive PointerButtonState
  | pressed
  | released
deriving DecidableEq, Repr

/-- State of the unlock-dialog flow: the dialog's `_closing` latch and
`_button_focused` flag, the number of `unlock_task` entries currently queued
on the display's deferred list, the number of `weston_desktop_shell_unlock`
requests sent so far, and whether the dialog object is still alive. -/
structure LockState where
  closing : Bool
  button_focused : Bool
  queued : Nat
  unlocks : Nat
  dialog_alive : Bool
deriving DecidableEq, Repr

/-- Modelled from the spec: `display_defer` is the toolkit's "defer this
one-shot task" primitive (window.c is not part of this repository); per the
spec it is a single-threaded task queue with no guard of its own, so each
call enqueues one more run of the task. -/
def display_defer (s : LockState) : LockState :=
  { s with queued := s.queued + 1 }

/-- Transcription of `unlock_dialog_button_handler`: on a left-button release
while the dialog is not already closing, defer the unlock task and mark the
dialog as closing. -/
def unlock_dialog_button_handler (s : LockState) (button : Nat)
    (st : PointerButtonState) : LockState :=
  if button = BTN_LEFT then
    if st = PointerButtonState.released ∧ s.closing = false then
      let s2 := display_defer s
      { s2 with closing := true }
    else s
  else s

/-- Transcription of `unlock_dialog_touch_up_handler`: unfocus the button,
defer the unlock task, and mark the dialog as closing — with no check of the
`closing` latch. -/
def unlock_dialog_touch_up_handler (s : LockState) : LockState :=
  let s1 := { s with button_focused := false }
  let s2 := display_defer s1
  { s2 with closing := true }

/-- Transcription of `unlock_dialog_finish` (the deferred task body): send
one `weston_desktop_shell_unlock` request and destroy the dialog. -/
def unlock_dialog_finish (s : LockState) : LockState :=
  { s with unlocks := s.unlocks + 1, dialog_alive := false }

/-- Run `n` queued deferred-task entries. -/
def run_finish_n (s : LockState) : Nat → LockState
  | 0 => s
  | n + 1 => run_finish_n (unlock_dialog_finish s) n

/-- Drain the deferred list: every queued `unlock_task` entry executes
`unlock_dialog_finish` once. -/
def run_deferred (s : LockState) : LockState :=
  { run_finish_n s s.queued with queued := 0 }

/-- C's `isspace` in the default locale: space and the five control
whitespace characters 9..13. -/
def isSpaceC (c : Char) : Bool :=
  c.toNat = 32 || (9 ≤ c.toNat && c.toNat ≤ 13)

/-- Helper for the whitespace split: accumulate the current run of non-space
characters (reversed in `cur`), emitting a token at each space boundary. -/
def wordsAux : List Char → List Char → List (List Char)
  | [], cur => if cur.isEmpty then [] else [cur.reverse]
  | c :: rest, cur =>
    if isSpaceC c then
      (if cur.isEmpty then [] else [cur.reverse]) ++ wordsAux rest []
    else wordsAux rest (c :: cur)

/-- The tokenization loop of `panel_add_launcher`: the scan starts at the
first character, so a command string beginning with whitespace yields one
empty leading token; afterwards each whitespace run is consumed before the
next (necessarily nonempty) token. -/
def tokenizeC (s : List Char) : List (List Char) :=
  match s with
  | [] => []
  | c :: _ => if isSpaceC c then [] :: wordsAux s [] else wordsAux s []

/-- Position of the last `=` in a token, if any: the scan
`for (p = start; ...) if (*p == '=') eq = p;` leaves `eq` at the last
occurrence. -/
def lastEqIdx : List Char → Option Nat
  | [] => none
  | c :: rest =>
    match lastEqIdx rest with
    | some i => some (i + 1)
    | none => if c = '=' then some 0 else none

/-- The scan-and-replace loop over the environment array:
`strncmp(ps[k], start, eq - start) == 0` compares only the first
`key.length` characters, so the first entry whose initial characters equal
the override's key (even if the entry's own name is longer) is replaced by
the whole token.  Returns `none` when no entry matched. -/
def replaceEnvFirst (key tok : List Char) :
    List (List Char) → Option (List (List Char))
  | [] => none
  | e :: rest =>
    if e.take key.length = key then some (tok :: rest)
    else (replaceEnvFirst key tok rest).map (fun l => e :: l)

/-- The per-token loop of `panel_add_launcher`: a token containing `=` is an
environment override only while `j == 0` (no argv token yet); it replaces
the first prefix-matching entry or is appended; every other token is pushed
onto argv. -/
def addTokens : List (List Char) → List (List Char) → List (List Char) →
    List (List Char) × List (List Char)
  | envp, argv, [] => (envp, argv)
  | envp, argv, tok :: rest =>
    match lastEqIdx tok, argv with
    | some i, [] =>
      let key := tok.take i
      match replaceEnvFirst key tok envp with
      | some envp2 => addTokens envp2 [] rest
      | none => addTokens (envp ++ [tok]) [] rest
    | some _, _ :: _ => addTokens envp (argv ++ [tok]) rest
    | none, _ => addTokens envp (argv ++ [tok]) rest

/-- The environment/argv construction of `panel_add_launcher`: the inherited
environment seeds `envp`, the command string is tokenized, and the per-token
loop splits overrides from arguments.  (The terminating null entries of the
two `wl_array`s are left implicit.) -/
def panel_add_launcher_parse (env : List (List Char)) (path : List Char) :
    List (List Char) × List (List Char) :=
  addTokens env [] (tokenizeC path)

/-- Whether a token would be treated as a candidate environment assignment
(contains a `=`). -/
def hasEq (tok : List Char) : Bool :=
  (lastEqIdx tok).isSome

/-- The effect of one environment override on `envp`: replace the first
prefix-matching entry, else append. -/
def applyOverride (envp : List (List Char)) (tok : List Char) :
    List (List Char) :=
  match lastEqIdx tok with
  | none => envp
  | some i =>
    match replaceEnvFirst (tok.take i) tok envp with
    | some envp2 => envp2
    | none => envp ++ [tok]

/-- String literal to character list. -/
def strL (s : String) : List Char :=
  s.toList

/-- A widget allocation as passed to `widget_set_allocation`. -/
structure Alloc where
  x : Int
  y : Int
  w : Int
  h : Int
deriving DecidableEq, Repr

/-- The launcher loop of `panel_resize_handler`: icons packed edge-to-edge
along the long axis, with the half-spacing pad applied before the first icon
only; returns the allocations and the final `(x, y)` cursor. -/
def launcher_allocs (horiz : Bool) (w0 : Int) :
    Nat → Int → Int → Int → Int → List Alloc × Int × Int
  | 0, x, y, fpw, fph => ([], x, y)
  | n + 1, x, y, fpw, fph =>
    let a : Alloc := ⟨x, y, w0 + fpw + 1, w0 + fph + 1⟩
    let r :=
      if horiz then launcher_allocs horiz w0 n (x + w0 + fpw) y 0 0
      else launcher_allocs horiz w0 n x (y + w0 + fph) 0 0
    (a :: r.1, r.2)

/-- Transcription of `panel_resize_handler`.  It reads `panel->position()`
and `panel->clock_format()` — the values captured into the Panel at
creation time.  `n` is the number of launchers.  The clock widget exists iff
the captured clock format is not `NoneFmt` (the constructor only calls
`add_clock` then); its reserved region sits at the far end of the axis with
width 170 for the `Seconds` format and 150 otherwise, and a fixed
`DEFAULT_SPACING * 3 = 30` height for vertical panels. -/
def panel_resize_handler (ppos : PanelPosition) (pfmt : ClockFormat)
    (n : Nat) (width height : Int) : List Alloc × Option Alloc :=
  let w0 : Int := if height > width then width else height
  let horiz : Bool :=
    match ppos with
    | PanelPosition.Top | PanelPosition.Bottom => true
    | _ => false
  let fph : Int := if horiz then 0 else 5
  let fpw : Int := if horiz then 5 else 0
  let r := launcher_allocs horiz w0 n 0 0 fpw fph
  let cw : Int := if pfmt = ClockFormat.Seconds then 170 else 150
  let clock : Option Alloc :=
    if pfmt = ClockFormat.NoneFmt then none
    else if horiz then some ⟨width - cw, r.2.2, cw + 1, w0 + 1⟩
    else some ⟨r.2.1, height - 30, cw + 1, 30 + 1⟩
  (r.1, clock)

/-! Theorems. -/

/-- C10: Parsing the clock-format configuration maps "minutes", "seconds",
"minutes-24h", "seconds-24h" and "none" to their respective formats, and maps
every other string — including the empty string used when the key is absent —
to the ISO format, so an unset or misspelled clock-format yields an ISO clock
rather than the Minutes default or no clock. -/
theorem C10_parse_clock_format_total :
    parse_clock_format "minutes" = ClockFormat.Minutes ∧
    parse_clock_format "seconds" = ClockFormat.Seconds ∧
    parse_clock_format "minutes-24h" = ClockFormat.Minutes24h ∧
    parse_clock_format "seconds-24h" = ClockFormat.Seconds24h ∧
    parse_clock_format "none" = ClockFormat.NoneFmt ∧
    parse_clock_format_config none = ClockFormat.Iso ∧
    ∀ s : String, s ≠ "minutes" → s ≠ "seconds" → s ≠ "minutes-24h" →
      s ≠ "seconds-24h" → s ≠ "none" → parse_clock_format s = ClockFormat.Iso := by
  refine ⟨rfl, rfl, rfl, rfl, rfl, rfl, ?_⟩
  intro s h1 h2 h3 h4 h5
  simp [parse_clock_format, h1, h2, h3, h4, h5]

/-- Witness for C10 at the misspelled string "minuts". -/
theorem C10_witness :
    ("minuts" : String) ≠ "minutes" ∧ parse_clock_format "minuts" = ClockFormat.Iso :=
  ⟨by decide,
   C10_parse_clock_format_total.2.2.2.2.2.2 "minuts" (by decide) (by decide)
     (by decide) (by decide) (by decide)⟩

/-- C9 counterexample: the unrecognized background-type "gradient" parses to
`Invalid`, not the claimed `Tile` fallback, and drawing with type `Invalid`
skips the image pass (solid color only) instead of tiling. -/
theorem C9_counterexample :
    background_create_type (some "gradient") = BackgroundType.Invalid ∧
    background_create_type (some "gradient") ≠ BackgroundType.Tile ∧
    background_draw_mode true (background_create_type (some "gradient")) =
      DrawMode.solidOnly ∧
    background_draw_mode true (background_create_type (some "gradient")) ≠
      DrawMode.patterned BackgroundType.Tile := by
  decide

/-- C9 amended: when the configured background-type string is not one of the
recognized values, the error is logged and the Background gets the `Invalid`
type, whereupon drawing skips the image pass entirely and paints only the
solid color (never fatal); the `Tile` default applies only when the key is
absent, via the default string "tile". -/
theorem C9_invalid_type_solid_fallback :
    (∀ s : String, s ≠ "scale" → s ≠ "scale-crop" → s ≠ "tile" → s ≠ "centered" →
       parse_background_type s = BackgroundType.Invalid) ∧
    background_create_type none = BackgroundType.Tile ∧
    ∀ img : Bool, background_draw_mode img BackgroundType.Invalid = DrawMode.solidOnly := by
  refine ⟨?_, rfl, ?_⟩
  · intro s h1 h2 h3 h4
    simp [parse_background_type, h1, h2, h3, h4]
  · intro img
    simp [background_draw_mode]

/-- Witness for C9 at the unknown type string "gradient". -/
theorem C9_witness :
    ("gradient" : String) ≠ "scale" ∧
    parse_background_type "gradient" = BackgroundType.Invalid ∧
    background_draw_mode true BackgroundType.Invalid = DrawMode.solidOnly :=
  ⟨by decide,
   C9_invalid_type_solid_fallback.1 "gradient" (by decide) (by decide) (by decide)
     (by decide),
   C9_invalid_type_solid_fallback.2.2 true⟩

/-- C6 counterexample: `Seconds24h` is a second-granularity clock format, yet
a left-position configure forces width 150 (the medium tier), not the wide
tier 170 the claim assigns to second-granularity formats. -/
theorem C6_counterexample :
    panel_configure PanelPosition.Left ClockFormat.Seconds24h PanelPosition.Left
      ClockFormat.Seconds24h 500 800 = ConfigureResult.resize 150 800 ∧
    ConfigureResult.resize (150 : Int) 800 ≠ ConfigureResult.resize 170 800 := by
  decide

/-- C6 amended: for top/bottom position the height is forced to 32 and the
width follows the proposal; for left/right the height follows the proposal
and the width is forced by clock-format tier — 32 when the clock is off or
ISO, 150 for "minutes", "minutes-24h" and also "seconds-24h", and 170 only
for the 12-hour "seconds" format. -/
theorem C6_panel_size_tiers :
    ∀ (dpos ppos : PanelPosition) (dfmt pfmt : ClockFormat) (w h : Int),
      1 ≤ w → 1 ≤ h →
      ((dpos = PanelPosition.Top ∨ dpos = PanelPosition.Bottom →
         panel_configure dpos dfmt ppos pfmt w h = ConfigureResult.resize w 32) ∧
       (dpos = PanelPosition.Left ∨ dpos = PanelPosition.Right →
         (dfmt = ClockFormat.Iso ∨ dfmt = ClockFormat.NoneFmt →
            panel_configure dpos dfmt ppos pfmt w h = ConfigureResult.resize 32 h) ∧
         (dfmt = ClockFormat.Minutes ∨ dfmt = ClockFormat.Minutes24h ∨
            dfmt = ClockFormat.Seconds24h →
            panel_configure dpos dfmt ppos pfmt w h = ConfigureResult.resize 150 h) ∧
         (dfmt = ClockFormat.Seconds →
            panel_configure dpos dfmt ppos pfmt w h = ConfigureResult.resize 170 h))) := by
  intro dpos ppos dfmt pfmt w h hw hh
  have hcond : ¬(w < 1 ∨ h < 1) := by omega
  constructor
  · rintro (rfl | rfl) <;> simp [panel_configure, panel_negotiate, hcond]
  · rintro (rfl | rfl) <;>
      refine ⟨?_, ?_, ?_⟩ <;>
      (first
        | rintro (rfl | rfl)
        | rintro (rfl | rfl | rfl)) <;>
      simp [panel_configure, panel_negotiate, hcond]

/-- Witness for C6: a left panel with the seconds-24h format resizes to the
medium width 150. -/
theorem C6_witness :
    (1 : Int) ≤ 500 ∧ (1 : Int) ≤ 800 ∧
    panel_configure PanelPosition.Left ClockFormat.Seconds24h PanelPosition.Top
      ClockFormat.Minutes 500 800 = ConfigureResult.resize 150 800 :=
  ⟨by decide, by decide,
   ((C6_panel_size_tiers PanelPosition.Left PanelPosition.Top ClockFormat.Seconds24h
       ClockFormat.Minutes 500 800 (by decide) (by decide)).2
     (Or.inl rfl)).2.1 (Or.inr (Or.inr rfl))⟩

/-- C8 counterexample: two panels with identical captured policy (position
Top, format Minutes) and the same proposed size get different configure
results when Desktop's current global policy differs — so the configure-time
size override is not determined solely by the values captured at Panel
creation. -/
theorem C8_counterexample :
    panel_configure PanelPosition.Left ClockFormat.Seconds PanelPosition.Top
        ClockFormat.Minutes 500 800 ≠
      panel_configure PanelPosition.Top ClockFormat.Minutes PanelPosition.Top
        ClockFormat.Minutes 500 800 := by
  decide

/-- C8 amended: the configure-time size override reads Desktop's current
global panel-position and clock-format and ignores the Panel's captured
copies, while the resize-time launcher/clock layout is driven by the captured
values: the clock's reserved width there is 170 for the captured Seconds
format and 150 otherwise. -/
theorem C8_configure_globals_resize_captured :
    (∀ (dpos : PanelPosition) (dfmt : ClockFormat)
       (p1 p2 : PanelPosition) (f1 f2 : ClockFormat) (w h : Int),
       panel_configure dpos dfmt p1 f1 w h = panel_configure dpos dfmt p2 f2 w h) ∧
    (∀ (ppos : PanelPosition) (pfmt : ClockFormat) (n : Nat) (width height : Int),
       pfmt ≠ ClockFormat.NoneFmt →
       ∃ a : Alloc, (panel_resize_handler ppos pfmt n width height).2 = some a ∧
         a.w = (if pfmt = ClockFormat.Seconds then 170 else 150) + 1) := by
  constructor
  · intro dpos dfmt p1 p2 f1 f2 w h
    rfl
  · intro ppos pfmt n width height hfmt
    cases ppos <;>
      simp [panel_resize_handler, hfmt]

/-- Witness for C8: a vertical panel whose captured format is Seconds
reserves clock width 171. -/
theorem C8_witness :
    ClockFormat.Seconds ≠ ClockFormat.NoneFmt ∧
    ∃ a : Alloc, (panel_resize_handler PanelPosition.Left ClockFormat.Seconds 1 32 500).2 =
        some a ∧ a.w = (if ClockFormat.Seconds = ClockFormat.Seconds then 170 else 150) + 1 :=
  ⟨by decide,
   C8_configure_globals_resize_captured.2 PanelPosition.Left ClockFormat.Seconds 1 32 500
     (by decide)⟩

/-- C5: a configure proposing width < 1 or height < 1 destroys the surface
(panel or background), clears the owning Output's reference, schedules no
resize, and subsequent geometry/scale events for that Output skip the
destroyed surface (its window is not touched). -/
theorem C5_zero_size_configure_teardown :
    ∀ (dpos : PanelPosition) (dfmt : ClockFormat) (o : OutputSt) (w h x y : Int),
      w < 1 ∨ h < 1 →
      (apply_panel_configure dpos dfmt o w h = ({ o with panel := none }, none) ∧
       (o.background.isSome = true →
         apply_background_configure o w h = ({ o with background := none }, none)) ∧
       (output_handle_geometry (apply_panel_configure dpos dfmt o w h).1 x y).2.1 = false ∧
       (output_handle_scale (apply_panel_configure dpos dfmt o w h).1).1 = false ∧
       (output_handle_geometry (apply_background_configure o w h).1 x y).2.2 = false ∧
       (output_handle_scale (apply_background_configure o w h).1).2 = false ∧
       (output_handle_geometry (apply_panel_configure dpos dfmt o w h).1 x y).1.x = x ∧
       (output_handle_geometry (apply_panel_configure dpos dfmt o w h).1 x y).1.y = y) := by
  intro dpos dfmt o w h x y hwh
  have hp : apply_panel_configure dpos dfmt o w h = ({ o with panel := none }, none) := by
    simp [apply_panel_configure, hwh]
  have hb : (apply_background_configure o w h).1.background = none := by
    cases hob : o.background <;> simp [apply_background_configure, hob, hwh]
  refine ⟨hp, ?_, ?_, ?_, ?_, ?_, ?_, ?_⟩
  · intro hsome
    cases hob : o.background with
    | none => rw [hob] at hsome; cases hsome
    | some b => simp [apply_background_configure, hob, hwh]
  · simp [hp, output_handle_geometry]
  · simp [hp, output_handle_scale]
  · simp [output_handle_geometry, hb]
  · simp [output_handle_scale, hb]
  · simp [hp, output_handle_geometry]
  · simp [hp, output_handle_geometry]

/-- Witness for C5 at a 0x0 configure on an output owning both surfaces. -/
theorem C5_witness :
    ((0 : Int) < 1 ∨ (0 : Int) < 1) ∧
    apply_panel_configure PanelPosition.Top ClockFormat.Minutes
        ⟨1, 0, 0, some ⟨5, 1, true⟩, some ⟨6, 1, true, true, 0⟩⟩ 0 0 =
      ({ oid := 1, x := 0, y := 0, panel := none,
         background := some ⟨6, 1, true, true, 0⟩ }, none) :=
  ⟨by decide,
   (C5_zero_size_configure_teardown PanelPosition.Top ClockFormat.Minutes
      ⟨1, 0, 0, some ⟨5, 1, true⟩, some ⟨6, 1, true, true, 0⟩⟩ 0 0 3 4
      (by decide)).1⟩

/-- C7 (code behaviour at the failing input): removing the only output — id 1,
owning a background — destroys the Output object (`destroyed_outputs = [1]`)
yet `desktop->outputs` still contains its entry afterwards, because
`Desktop::remove_output` never erases the element from the vector. -/
theorem C7_removed_output_still_in_collection :
    (remove_output [⟨1, 0, 0, none, some ⟨10, 1, true, false, 0⟩⟩]
        ⟨1, 0, 0, none, some ⟨10, 1, true, false, 0⟩⟩).destroyed_outputs = [1] ∧
    global_handler_remove [⟨1, 0, 0, none, some ⟨10, 1, true, false, 0⟩⟩] 1 =
      [⟨1, 0, 0, none, some ⟨10, 1, true, false, 0⟩⟩] ∧
    (lookup_output (global_handler_remove
        [⟨1, 0, 0, none, some ⟨10, 1, true, false, 0⟩⟩] 1) 1).isSome = true := by
  decide

/-- C3 (code behaviour at the failing input): starting from a live dialog
that is not closing, a left-button release followed by a touch-up before the
deferred task runs enqueues the finalize task twice (the touch-up handler
never consults the closing latch), and draining the deferred queue then sends
two unlock requests — not the single one the claim requires. -/
theorem C3_touch_up_skips_latch :
    (unlock_dialog_button_handler ⟨false, true, 0, 0, true⟩ BTN_LEFT
        PointerButtonState.released).closing = true ∧
    (unlock_dialog_touch_up_handler
        (unlock_dialog_button_handler ⟨false, true, 0, 0, true⟩ BTN_LEFT
          PointerButtonState.released)).queued = 2 ∧
    (run_deferred (unlock_dialog_touch_up_handler
        (unlock_dialog_button_handler ⟨false, true, 0, 0, true⟩ BTN_LEFT
          PointerButtonState.released))).unlocks = 2 ∧
    (unlock_dialog_button_handler
        (unlock_dialog_button_handler ⟨false, true, 0, 0, true⟩ BTN_LEFT
          PointerButtonState.released) BTN_LEFT PointerButtonState.released).queued = 1 := by
  decide

/-- C4 counterexample: with inherited environment ["AB=2"], the command
"A=1 /bin/x" should (per the claim) append A=1, since no inherited entry has
key "A"; the code's `strncmp` prefix match instead replaces "AB=2", so the
inherited variable AB disappears from the spawned environment. -/
theorem C4_counterexample :
    panel_add_launcher_parse [strL "AB=2"] (strL "A=1 /bin/x") =
      ([strL "A=1"], [strL "/bin/x"]) ∧
    strL "AB=2" ∉ (panel_add_launcher_parse [strL "AB=2"] (strL "A=1 /bin/x")).1 := by
  decide

/-- Tokens pushed onto a nonempty argv are appended verbatim: once a
non-assignment token has been seen (`j > 0`), the environment branch is dead
and every remaining token becomes an argument. -/
theorem addTokens_args (envp : List (List Char)) (a : List Char)
    (argv toks : List (List Char)) :
    addTokens envp (a :: argv) toks = (envp, (a :: argv) ++ toks) := by
  induction toks generalizing argv with
  | nil => simp [addTokens]
  | cons tok rest ih =>
    cases h : lastEqIdx tok with
    | none =>
      have := ih (argv ++ [tok])
      simpa [addTokens, h] using this
    | some i =>
      have := ih (argv ++ [tok])
      simpa [addTokens, h] using this

/-- C4 amended: tokens are taken from the code's whitespace split (which
keeps one empty leading token when the string starts with whitespace; such a
token contains no `=` and so counts as a command argument).  While every
token seen so far contains `=`, each is an environment override: it replaces
the first environment entry whose initial characters equal the override's
key — a prefix match, so an entry whose name merely begins with the key also
matches — or is appended when nothing matches.  From the first token without
`=` onward, every token (assignments included) is a command argument.  The
two spec examples behave as stated. -/
theorem C4_launcher_env_arg_split :
    (∀ (env toks : List (List Char)),
       addTokens env [] toks =
         ((toks.takeWhile hasEq).foldl applyOverride env, toks.dropWhile hasEq)) ∧
    panel_add_launcher_parse [strL "HOME=/root", strL "TERM=xterm"]
        (strL "A=1 B=2 /bin/x --y") =
      ([strL "HOME=/root", strL "TERM=xterm", strL "A=1", strL "B=2"],
       [strL "/bin/x", strL "--y"]) ∧
    panel_add_launcher_parse [strL "HOME=/root", strL "TERM=xterm"]
        (strL "/bin/x A=1") =
      ([strL "HOME=/root", strL "TERM=xterm"], [strL "/bin/x", strL "A=1"]) := by
  refine ⟨?_, by decide, by decide⟩
  intro env toks
  induction toks generalizing env with
  | nil => simp [addTokens]
  | cons tok rest ih =>
    cases h : lastEqIdx tok with
    | none =>
      have hne : hasEq tok = false := by simp [hasEq, h]
      rw [show addTokens env [] (tok :: rest) = addTokens env [tok] rest from by
            simp [addTokens, h]]
      rw [addTokens_args]
      simp [List.takeWhile_cons, List.dropWhile_cons, hne]
    | some i =>
      have hye : hasEq tok = true := by simp [hasEq, h]
      cases hr : replaceEnvFirst (tok.take i) tok env with
      | some envp2 =>
        have step : addTokens env [] (tok :: rest) = addTokens envp2 [] rest := by
          simp [addTokens, h, hr]
        have hov : applyOverride env tok = envp2 := by
          simp [applyOverride, h, hr]
        rw [step, ih]
        simp [List.takeWhile_cons, List.dropWhile_cons, hye, hov]
      | none =>
        have step : addTokens env [] (tok :: rest) = addTokens (env ++ [tok]) [] rest := by
          simp [addTokens, h, hr]
        have hov : applyOverride env tok = env ++ [tok] := by
          simp [applyOverride, h, hr]
        rw [step, ih]
        simp [List.takeWhile_cons, List.dropWhile_cons, hye, hov]

/-- The readiness check never changes the outputs collection. -/
theorem check_desktop_ready_outputs (d : DesktopSt) :
    (check_desktop_ready d).1.outputs = d.outputs := by
  by_cases h : (!d.painted && desktop_is_painted d.outputs) = true <;>
    simp [check_desktop_ready, h]

/-- Once the gate is set, every step is silent and leaves it set. -/
theorem stepEv_painted (d : DesktopSt) (e : Ev) (h : d.painted = true) :
    (stepEv d e).1.painted = true ∧ (stepEv d e).2 = 0 := by
  cases e <;> simp [stepEv, check_desktop_ready, h]

/-- From an unset gate, a step either stays silent with the gate unset, or
emits exactly one notification and sets the gate. -/
theorem stepEv_cases (d : DesktopSt) (e : Ev) (h : d.painted = false) :
    ((stepEv d e).2 = 0 ∧ (stepEv d e).1.painted = false) ∨
    ((stepEv d e).2 = 1 ∧ (stepEv d e).1.painted = true) := by
  cases e with
  | paintPanel i =>
    by_cases hq : desktop_is_painted (mark_panel_painted d.outputs i) = true
    · right; simp [stepEv, check_desktop_ready, h, hq]
    · left
      simp only [Bool.not_eq_true] at hq
      simp [stepEv, check_desktop_ready, h, hq]
  | paintBackground i =>
    by_cases hq : desktop_is_painted (mark_background_painted d.outputs i) = true
    · right; simp [stepEv, check_desktop_ready, h, hq]
    · left
      simp only [Bool.not_eq_true] at hq
      simp [stepEv, check_desktop_ready, h, hq]
  | announceOutput o => left; simp [stepEv, h]
  | removeOutput i => left; simp [stepEv, h]

/-- Once the gate is set, a whole run is silent and leaves it set. -/
theorem runEv_painted (evs : List Ev) (d : DesktopSt) (h : d.painted = true) :
    (runEv d evs).1.painted = true ∧ (runEv d evs).2 = 0 := by
  induction evs generalizing d with
  | nil => simpa [runEv] using h
  | cons e rest ih =>
    obtain ⟨h1, h2⟩ := stepEv_painted d e h
    obtain ⟨h3, h4⟩ := ih (stepEv d e).1 h1
    simp [runEv, h2, h3, h4]

/-- From an unset gate, a run emits at most one notification, and it has
emitted one exactly when the gate ends up set. -/
theorem runEv_once (evs : List Ev) (d : DesktopSt) (h : d.painted = false) :
    (runEv d evs).2 ≤ 1 ∧
    ((runEv d evs).1.painted = true ↔ (runEv d evs).2 = 1) := by
  induction evs generalizing d with
  | nil => simp [runEv, h]
  | cons e rest ih =>
    rcases stepEv_cases d e h with ⟨h1, h2⟩ | ⟨h1, h2⟩
    · obtain ⟨h3, h4⟩ := ih (stepEv d e).1 h2
      simp [runEv, h1, h3, h4]
    · obtain ⟨h3, h4⟩ := runEv_painted rest (stepEv d e).1 h2
      simp [runEv, h1, h3, h4]
    
/-- Splitting a run at an append boundary. -/
theorem runEv_append (a b : List Ev) (d : DesktopSt) :
    runEv d (a ++ b) =
      ((runEv (runEv d a).1 b).1, (runEv d a).2 + (runEv (runEv d a).1 b).2) := by
  induction a generalizing d with
  | nil => simp [runEv]
  | cons e rest ih =>
    simp [runEv, ih, Nat.add_assoc]

/-- A panel-paint step that ends with every surface painted leaves the gate
set (either it was already set, or the check fires right there). -/
theorem stepEv_paint_sets_gate (d : DesktopSt) (i : Nat)
    (h : desktop_is_painted (stepEv d (Ev.paintPanel i)).1.outputs = true) :
    (stepEv d (Ev.paintPanel i)).1.painted = true := by
  cases hp : d.painted with
  | true => exact (stepEv_painted d (Ev.paintPanel i) hp).1
  | false =>
    rcases stepEv_cases d (Ev.paintPanel i) hp with ⟨h1, h2⟩ | ⟨h1, h2⟩
    · exfalso
      have houts : (stepEv d (Ev.paintPanel i)).1.outputs =
          mark_panel_painted d.outputs i := by
        simp only [stepEv]
        exact check_desktop_ready_outputs _
      rw [houts] at h
      have : (stepEv d (Ev.paintPanel i)).1.painted = true := by
        simp [stepEv, check_desktop_ready, hp, h]
      rw [this] at h2
      cases h2
    · exact h2

/-- C1: the desktop-ready notification fires at most once per run:
`check_desktop_ready` is a no-op once Desktop's painted gate is set; when it
does emit, every panel and background of every output in the collection has
painted (so the notification comes only after the last pending paint) and
the gate is set, never to be reset; any event sequence from the initial
state emits at most one notification, none at all once the gate is set, and
a run whose last event is a paint that completes the barrier emits exactly
one; conversely, a check with the gate unset and every surface painted sets
the gate and emits. -/
theorem C1_desktop_ready_fires_once :
    (∀ d : DesktopSt, d.painted = true → check_desktop_ready d = (d, false)) ∧
    (∀ d : DesktopSt, (check_desktop_ready d).2 = true →
       desktop_is_painted d.outputs = true ∧ (check_desktop_ready d).1.painted = true) ∧
    (∀ (outs : List OutputSt) (evs : List Ev),
       (runEv ⟨false, outs⟩ evs).2 ≤ 1) ∧
    (∀ (d : DesktopSt) (evs : List Ev), d.painted = true → (runEv d evs).2 = 0) ∧
    (∀ (outs : List OutputSt) (evs : List Ev) (i : Nat),
       desktop_is_painted
           (runEv ⟨false, outs⟩ (evs ++ [Ev.paintPanel i])).1.outputs = true →
       (runEv ⟨false, outs⟩ (evs ++ [Ev.paintPanel i])).2 = 1) ∧
    (∀ d : DesktopSt, d.painted = false → desktop_is_painted d.outputs = true →
       check_desktop_ready d = ({ d with painted := true }, true)) := by
  refine ⟨?_, ?_, ?_, ?_, ?_, ?_⟩
  · intro d h
    simp [check_desktop_ready, h]
  · intro d h
    by_cases hc : (!d.painted && desktop_is_painted d.outputs) = true
    · rw [Bool.and_eq_true] at hc
      constructor
      · exact hc.2
      · simp [check_desktop_ready, hc.1, hc.2]
    · rw [check_desktop_ready, if_neg hc] at h
      cases h
  · intro outs evs
    exact (runEv_once evs ⟨false, outs⟩ rfl).1
  · intro d evs h
    exact (runEv_painted evs d h).2
  · intro outs evs i h
    rw [runEv_append] at h ⊢
    have hsingle : runEv (runEv ⟨false, outs⟩ evs).1 [Ev.paintPanel i] =
        ((stepEv (runEv ⟨false, outs⟩ evs).1 (Ev.paintPanel i)).1,
         (stepEv (runEv ⟨false, outs⟩ evs).1 (Ev.paintPanel i)).2 + 0) := by
      simp [runEv]
    rw [hsingle] at h ⊢
    simp only [Nat.add_zero] at h ⊢
    cases hp : (runEv ⟨false, outs⟩ evs).1.painted with
    | true =>
      have hn : (runEv ⟨false, outs⟩ evs).2 = 1 :=
        ((runEv_once evs ⟨false, outs⟩ rfl).2).mp hp
      have hm := (stepEv_painted _ (Ev.paintPanel i) hp).2
      rw [hn, hm]
    | false =>
      have hn : (runEv ⟨false, outs⟩ evs).2 = 0 := by
        have hle := (runEv_once evs ⟨false, outs⟩ rfl).1
        have hiff := (runEv_once evs ⟨false, outs⟩ rfl).2
        rcases Nat.lt_or_ge (runEv ⟨false, outs⟩ evs).2 1 with h1 | h1
        · omega
        · exfalso
          have : (runEv ⟨false, outs⟩ evs).2 = 1 := by omega
          rw [hiff.mpr this] at hp
          cases hp
      have hset := stepEv_paint_sets_gate (runEv ⟨false, outs⟩ evs).1 i h
      rcases stepEv_cases (runEv ⟨false, outs⟩ evs).1 (Ev.paintPanel i) hp with
        ⟨h1, h2⟩ | ⟨h1, h2⟩
      · rw [hset] at h2; cases h2
      · rw [hn, h1]
  · intro d h1 h2
    simp [check_desktop_ready, h1, h2]

/-- Witness for C1: one output with one unpainted panel; painting it
completes the barrier and the run emits exactly one notification. -/
theorem C1_witness :
    check_desktop_ready ⟨true, []⟩ = (⟨true, []⟩, false) ∧
    desktop_is_painted
        (runEv ⟨false, [⟨1, 0, 0, some ⟨5, 1, false⟩, none⟩]⟩
          ([] ++ [Ev.paintPanel 1])).1.outputs = true ∧
    (runEv ⟨false, [⟨1, 0, 0, some ⟨5, 1, false⟩, none⟩]⟩
        ([] ++ [Ev.paintPanel 1])).2 = 1 :=
  ⟨C1_desktop_ready_fires_once.1 ⟨true, []⟩ rfl,
   by decide,
   C1_desktop_ready_fires_once.2.2.2.2.1 [⟨1, 0, 0, some ⟨5, 1, false⟩, none⟩] [] 1
     (by decide)⟩

/-- Looking up the updated clone after an in-place update of every entry
carrying its id. -/
theorem lookup_update (outs : List OutputSt) (rep rep2 : OutputSt)
    (hoid : rep2.oid = rep.oid) (hmem : rep ∈ outs) :
    lookup_output (outs.map (fun c => if c.oid = rep.oid then rep2 else c))
      rep.oid = some rep2 := by
  induction outs with
  | nil => cases hmem
  | cons o rest ih =>
    by_cases ho : o.oid = rep.oid
    · simp [lookup_output, List.find?, ho, hoid]
    · have hmem2 : rep ∈ rest := by
        rcases List.mem_cons.mp hmem with h | h
        · subst h
          exact absurd rfl ho
        · exact h
      simpa [lookup_output, List.find?, ho] using ih hmem2

/-- Entries other than the clone are untouched by the update. -/
theorem mem_map_untouched (outs : List OutputSt) (rep rep2 c : OutputSt)
    (hc : c ∈ outs) (hne : c.oid ≠ rep.oid) :
    c ∈ outs.map (fun d => if d.oid = rep.oid then rep2 else d) := by
  have h := List.mem_map_of_mem (fun d => if d.oid = rep.oid then rep2 else d) hc
  simpa [hne] using h

/-- C2: on removal of an Output: with no Background it is destroyed
immediately and no reconciliation happens; with a Background, if the clone
scan finds another live Output at the same cached (x, y), the Background is
handed over exactly when the clone lacks one (its owner back-reference
rewritten to the clone) and the Panel exactly when the clone lacks one,
everything still attached being destroyed with the Output; without a clone
the decorations are destroyed unconditionally; outputs other than the clone
are untouched. -/
theorem C2_remove_output_reconciliation :
    ∀ (outs : List OutputSt) (out : OutputSt),
      (out.background = none →
        remove_output outs out =
          { outputs := outs
            destroyed_panels := (out.panel.map PanelSt.pid).toList
            destroyed_bgs := []
            destroyed_outputs := [out.oid] }) ∧
      (∀ b : BgSt, out.background = some b → find_clone outs out = none →
        (remove_output outs out).destroyed_bgs = [b.bid] ∧
        (remove_output outs out).destroyed_panels =
          (out.panel.map PanelSt.pid).toList ∧
        (remove_output outs out).outputs = outs) ∧
      (∀ (b : BgSt) (rep : OutputSt),
        out.background = some b → find_clone outs out = some rep →
        ∃ rep2 : OutputSt,
          lookup_output (remove_output outs out).outputs rep.oid = some rep2 ∧
          (rep.background = none →
            rep2.background = some { b with owner := rep.oid } ∧
            (remove_output outs out).destroyed_bgs = []) ∧
          (rep.background ≠ none →
            rep2.background = rep.background ∧
            (remove_output outs out).destroyed_bgs = [b.bid]) ∧
          (rep.panel = none →
            rep2.panel = out.panel.map (fun p => { p with owner := rep.oid }) ∧
            (remove_output outs out).destroyed_panels = []) ∧
          (rep.panel ≠ none →
            rep2.panel = rep.panel ∧
            (remove_output outs out).destroyed_panels =
              (out.panel.map PanelSt.pid).toList) ∧
          (∀ c ∈ outs, c.oid ≠ rep.oid → c ∈ (remove_output outs out).outputs)) := by
  intro outs out
  refine ⟨?_, ?_, ?_⟩
  · intro h
    simp [remove_output, h]
  · intro b hb hclone
    simp [remove_output, hb, hclone]
  · intro b rep hb hclone
    have hmem : rep ∈ outs := List.mem_of_find?_eq_some hclone
    rcases hrb : rep.background with _ | rb <;> rcases hrp : rep.panel with _ | rp
    · refine ⟨{ rep with
          background := some { b with owner := rep.oid }
          panel := out.panel.map (fun p => { p with owner := rep.oid }) },
        ?_, ?_, ?_, ?_, ?_, ?_⟩
      · have := lookup_update outs rep
          { rep with
            background := some { b with owner := rep.oid }
            panel := out.panel.map (fun p => { p with owner := rep.oid }) } rfl hmem
        simpa [remove_output, hb, hclone, hrb, hrp] using this
      · intro hx
        exact ⟨rfl, by simp [remove_output, hb, hclone, hrb, hrp]⟩
      · intro hcontra
        simp at hcontra
      · intro hx
        exact ⟨rfl, by simp [remove_output, hb, hclone, hrb, hrp]⟩
      · intro hcontra
        simp at hcontra
      · intro c hc hne
        have := mem_map_untouched outs rep
          { rep with
            background := some { b with owner := rep.oid }
            panel := out.panel.map (fun p => { p with owner := rep.oid }) } c hc hne
        simpa [remove_output, hb, hclone, hrb, hrp] using this
    · refine ⟨{ rep with background := some { b with owner := rep.oid } },
        ?_, ?_, ?_, ?_, ?_, ?_⟩
      · have := lookup_update outs rep
          { rep with background := some { b with owner := rep.oid } } rfl hmem
        simpa [remove_output, hb, hclone, hrb, hrp] using this
      · intro hx
        exact ⟨rfl, by simp [remove_output, hb, hclone, hrb, hrp]⟩
      · intro hcontra
        simp at hcontra
      · intro hcontra
        simp at hcontra
      · intro hx
        exact ⟨by simp [hrp], by simp [remove_output, hb, hclone, hrb, hrp]⟩
      · intro c hc hne
        have := mem_map_untouched outs rep
          { rep with background := some { b with owner := rep.oid } } c hc hne
        simpa [remove_output, hb, hclone, hrb, hrp] using this
    · refine ⟨{ rep with
          panel := out.panel.map (fun p => { p with owner := rep.oid }) },
        ?_, ?_, ?_, ?_, ?_, ?_⟩
      · have := lookup_update outs rep
          { rep with
            panel := out.panel.map (fun p => { p with owner := rep.oid }) } rfl hmem
        simpa [remove_output, hb, hclone, hrb, hrp] using this
      · intro hcontra
        simp at hcontra
      · intro hx
        exact ⟨by simp [hrb], by simp [remove_output, hb, hclone, hrb, hrp]⟩
      · intro hx
        exact ⟨rfl, by simp [remove_output, hb, hclone, hrb, hrp]⟩
      · intro hcontra
        simp at hcontra
      · intro c hc hne
        have := mem_map_untouched outs rep
          { rep with
            panel := out.panel.map (fun p => { p with owner := rep.oid }) } c hc hne
        simpa [remove_output, hb, hclone, hrb, hrp] using this
    · refine ⟨rep, ?_, ?_, ?_, ?_, ?_, ?_⟩
      · have := lookup_update outs rep rep rfl hmem
        simpa [remove_output, hb, hclone, hrb, hrp] using this
      · intro hcontra
        simp at hcontra
      · intro hx
        exact ⟨hrb, by simp [remove_output, hb, hclone, hrb, hrp]⟩
      · intro hcontra
        simp at hcontra
      · intro hx
        exact ⟨hrp, by simp [remove_output, hb, hclone, hrb, hrp]⟩
      · intro c hc hne
        have := mem_map_untouched outs rep rep c hc hne
        simpa [remove_output, hb, hclone, hrb, hrp] using this

/-- Witness for C2: output 2 (with panel 20 and background 21) is removed
while output 1 sits at the same position with no decorations; the background
is handed over with its owner rewritten to output 1. -/
theorem C2_witness :
    (⟨2, 0, 0, some ⟨20, 2, true⟩, some ⟨21, 2, true, false, 0⟩⟩ : OutputSt).background =
      some ⟨21, 2, true, false, 0⟩ ∧
    find_clone
        [⟨1, 0, 0, none, none⟩,
         ⟨2, 0, 0, some ⟨20, 2, true⟩, some ⟨21, 2, true, false, 0⟩⟩]
        ⟨2, 0, 0, some ⟨20, 2, true⟩, some ⟨21, 2, true, false, 0⟩⟩ =
      some ⟨1, 0, 0, none, none⟩ ∧
    ∃ rep2 : OutputSt,
      lookup_output
          (remove_output
            [⟨1, 0, 0, none, none⟩,
             ⟨2, 0, 0, some ⟨20, 2, true⟩, some ⟨21, 2, true, false, 0⟩⟩]
            ⟨2, 0, 0, some ⟨20, 2, true⟩, some ⟨21, 2, true, false, 0⟩⟩).outputs 1 =
        some rep2 ∧
      rep2.background = some ⟨21, 1, true, false, 0⟩ := by
  refine ⟨rfl, by decide, ?_⟩
  obtain ⟨rep2, h1, h2, -⟩ :=
    (C2_remove_output_reconciliation
      [⟨1, 0, 0, none, none⟩,
       ⟨2, 0, 0, some ⟨20, 2, true⟩, some ⟨21, 2, true, false, 0⟩⟩]
      ⟨2, 0, 0, some ⟨20, 2, true⟩, some ⟨21, 2, true, false, 0⟩⟩).2.2
      ⟨21, 2, true, false, 0⟩ ⟨1, 0, 0, none, none⟩ rfl (by decide)
  exact ⟨rep2, h1, (h2 rfl).1⟩
